import Mathlib

/-!
Verification of the wasm `Request` / `RequestBuilder` core of the reqwest
fork (file `src/wasm/request.rs`).

Shallow embedding conventions:
* `Method`, `Url`, `HeaderName`, `HeaderValue`, `Body` are external opaque
  types here (the spec treats their internals as out of scope); they are
  modelled as `String`.
* `http::Error` values carried by failed `TryFrom` conversions are modelled
  as `HttpError := String`; `crate::Error` is `ReqError`, whose `builder`
  constructor models `crate::error::builder`.
* The generic `TryFrom<K> for HeaderName` / `TryFrom<V> for HeaderValue`
  conversions of `RequestBuilder::header` are external; the embedding takes
  their results (`Except HttpError _`) as the arguments of `header`, exactly
  the information the Rust generic call site supplies.
* `HeaderMap` (external, `http` crate) is an ordered multimap; its `append`
  operation, the only one used by this file, appends the pair at the end and
  never overwrites.  It is modelled as an association list.
* `Client::execute_request` (the transport) is external; a `Client` is
  modelled as its dispatch function `Request → Except ReqError Response`.
* Rust `async` is erased: `send` returns the settled value of the future.
* `fmt::Debug` output is modelled structurally: a struct name together with
  the ordered list of `(field name, rendered value)` pairs produced by the
  `DebugStruct` builder calls.
-/

namespace ReqwestWasm

abbrev Method := String

abbrev Url := String

abbrev HeaderName := String

abbrev HeaderValue := String

abbrev Body := String

abbrev HttpError := String

/-- Errors of the crate (`crate::Result`): `builder` models
`crate::error::builder(e.into())`; `transport` models errors produced by the
client during dispatch. -/
inductive ReqError where
  | builder (e : HttpError)
  | transport (msg : String)
deriving DecidableEq, Repr

/-- `web_sys::RequestMode` (re-exported by the source file), an opaque
platform enumeration. -/
inductive RequestMode where
  | same_origin
  | no_cors
  | cors
  | navigate
deriving DecidableEq, Repr

/-- `web_sys::RequestCache` (re-exported by the source file), an opaque
platform enumeration. -/
inductive RequestCache where
  | default
  | no_store
  | reload
  | no_cache
  | force_cache
  | only_if_cached
deriving DecidableEq, Repr

/-- External `http::HeaderMap`: an ordered multimap of name/value pairs. -/
abbrev HeaderMap := List (HeaderName × HeaderValue)

/-- `HeaderMap::append`: inserts the pair at the end, keeping any existing
values for the same name (multi-valued, never overwriting). -/
def HeaderMap.append (m : HeaderMap) (k : HeaderName) (v : HeaderValue) : HeaderMap :=
  m ++ [(k, v)]

/-- `HeaderMap::get_all`: all values stored for a name, in insertion order. -/
def HeaderMap.get_all (m : HeaderMap) (k : HeaderName) : List HeaderValue :=
  (m.filter (fun p => p.fst == k)).map (fun p => p.snd)

/-- External response value of a successful dispatch. -/
structure Response where
  status : Nat
deriving DecidableEq, Repr

/-- `struct Request` (request.rs lines 12-19). -/
structure Request where
  method : Method
  url : Url
  headers : HeaderMap
  body : Option Body
  fetch_mode : Option RequestMode
  cache_mode : Option RequestCache
deriving DecidableEq, Repr

/-- `Request::new` (lines 28-37). -/
def Request.new (method : Method) (url : Url) : Request :=
  { method := method
    url := url
    headers := []
    body := none
    fetch_mode := none
    cache_mode := none }

/-- External `Client`, modelled by its dispatch behaviour
(`execute_request : Request → crate::Result<Response>`). -/
def Client := Request → Except ReqError Response

/-- `struct RequestBuilder` (lines 22-25): a client handle and
`request : crate::Result<Request>`. -/
structure RequestBuilder where
  client : Client
  request : Except ReqError Request

/-- `RequestBuilder::new` (lines 117-119). -/
def RequestBuilder.new (client : Client) (request : Except ReqError Request) :
    RequestBuilder :=
  { client := client, request := request }

/-- `RequestBuilder::body` (lines 122-127): if the outcome is `Ok`, install
the converted body; otherwise return `self` unchanged.  The `T: Into<Body>`
conversion is total and external, so the embedding receives the converted
`Body` value. -/
def RequestBuilder.body (b : RequestBuilder) (v : Body) : RequestBuilder :=
  match b.request with
  | Except.ok req => { b with request := Except.ok { req with body := some v } }
  | Except.error _ => b

/-- `RequestBuilder::header` (lines 130-153).  The two `TryFrom` conversion
results are the arguments `k` and `v`.  The source initialises
`error = None`, runs the conversions only inside `if let Ok(ref mut req)`,
and afterwards stores `Err(err)` when `error` was set; that control flow is
inlined into the match arms (each `Err(e)` arm is
`error = Some(crate::error::builder(e.into()))` followed by the trailing
assignment). -/
def RequestBuilder.header (b : RequestBuilder) (k : Except HttpError HeaderName)
    (v : Except HttpError HeaderValue) : RequestBuilder :=
  match b.request with
  | Except.error _ => b
  | Except.ok req =>
    match k with
    | Except.error e => { b with request := Except.error (ReqError.builder e) }
    | Except.ok key =>
      match v with
      | Except.error e => { b with request := Except.error (ReqError.builder e) }
      | Except.ok val =>
        { b with request := Except.ok { req with headers := req.headers.append key val } }

/-- Which `TryFrom` conversions a `header` call actually evaluates. -/
inductive ConvAttempt where
  | nameConv
  | valueConv
deriving DecidableEq, Repr

/-- `RequestBuilder::header` instrumented with the list of conversion
attempts the call evaluates, in evaluation order: the source runs
`HeaderName::try_from(key)` only inside `if let Ok(ref mut req)` and
`HeaderValue::try_from(value)` only inside the `Ok(key)` arm, so a call on a
failed builder evaluates no conversion at all. -/
def RequestBuilder.headerTraced (b : RequestBuilder) (k : Except HttpError HeaderName)
    (v : Except HttpError HeaderValue) : RequestBuilder × List ConvAttempt :=
  match b.request with
  | Except.error _ => (b, [])
  | Except.ok req =>
    match k with
    | Except.error e =>
      ({ b with request := Except.error (ReqError.builder e) }, [ConvAttempt.nameConv])
    | Except.ok key =>
      match v with
      | Except.error e =>
        ({ b with request := Except.error (ReqError.builder e) },
          [ConvAttempt.nameConv, ConvAttempt.valueConv])
      | Except.ok val =>
        ({ b with request := Except.ok { req with headers := req.headers.append key val } },
          [ConvAttempt.nameConv, ConvAttempt.valueConv])

/-- `RequestBuilder::fetch_mode` (lines 157-162). -/
def RequestBuilder.fetch_mode (b : RequestBuilder) (mode : RequestMode) : RequestBuilder :=
  match b.request with
  | Except.ok req => { b with request := Except.ok { req with fetch_mode := some mode } }
  | Except.error _ => b

/-- `RequestBuilder::cache_mode` (lines 166-171). -/
def RequestBuilder.cache_mode (b : RequestBuilder) (mode : RequestCache) : RequestBuilder :=
  match b.request with
  | Except.ok req => { b with request := Except.ok { req with cache_mode := some mode } }
  | Except.error _ => b

/-- `RequestBuilder::send` (lines 193-196): `let req = self.request?;
self.client.execute_request(req).await`. -/
def RequestBuilder.send (b : RequestBuilder) : Except ReqError Response :=
  match b.request with
  | Except.error e => Except.error e
  | Except.ok req => b.client req

/-- `send` instrumented with the number of times the transport dispatch
(`execute_request`) is invoked. -/
def RequestBuilder.sendTraced (b : RequestBuilder) : Except ReqError Response × Nat :=
  match b.request with
  | Except.error e => (Except.error e, 0)
  | Except.ok req => (b.client req, 1)

/-- One chained configuration call of the fluent API. -/
inductive BuildOp where
  | body (v : Body)
  | header (k : Except HttpError HeaderName) (v : Except HttpError HeaderValue)
  | fetch_mode (m : RequestMode)
  | cache_mode (m : RequestCache)

/-- Apply one chained call to a builder. -/
def applyOp (b : RequestBuilder) (op : BuildOp) : RequestBuilder :=
  match op with
  | BuildOp.body v => b.body v
  | BuildOp.header k v => b.header k v
  | BuildOp.fetch_mode m => b.fetch_mode m
  | BuildOp.cache_mode m => b.cache_mode m

/-- Apply a whole chain of configuration calls, left to right. -/
def applyChain (b : RequestBuilder) (ops : List BuildOp) : RequestBuilder :=
  ops.foldl applyOp b

/-- A chain consisting only of header insertions whose name and value
conversions succeed. -/
def valid_header_ops (ps : List (HeaderName × HeaderValue)) : List BuildOp :=
  ps.map (fun p => BuildOp.header (Except.ok p.fst) (Except.ok p.snd))

/-- Rendering of an error for `Debug` output. -/
def reprError : ReqError → String
  | ReqError.builder e => "builder(" ++ e ++ ")"
  | ReqError.transport m => "transport(" ++ m ++ ")"

/-- Rendering of a header map for `Debug` output. -/
def reprHeaders (m : HeaderMap) : String :=
  String.intercalate ", " (m.map (fun p => p.fst ++ ": " ++ p.snd))

/-- `fmt_request_fields` (lines 215-222): the `DebugStruct` field calls
`method`, `url`, `headers` — body and modes are not emitted. -/
def fmt_request_fields (r : Request) : List (String × String) :=
  [("method", r.method), ("url", r.url), ("headers", reprHeaders r.headers)]

/-- `impl fmt::Debug for Request` (lines 199-203): struct name plus the
fields of `fmt_request_fields`. -/
def Request.debugFmt (r : Request) : String × List (String × String) :=
  ("Request", fmt_request_fields r)

/-- `impl fmt::Debug for RequestBuilder` (lines 205-213): on `Ok`, the same
request fields; on `Err`, the single field `error`. -/
def RequestBuilder.debugFmt (b : RequestBuilder) : String × List (String × String) :=
  ("RequestBuilder",
    match b.request with
    | Except.ok req => fmt_request_fields req
    | Except.error err => [("error", reprError err)])

/-- `Debug::fmt` takes `&self`: formatting returns its output together with
the (necessarily unchanged) formatted value. -/
def Request.debugRun (r : Request) : (String × List (String × String)) × Request :=
  (r.debugFmt, r)

/-- `Debug::fmt` takes `&self`: formatting a builder returns its output
together with the (necessarily unchanged) builder. -/
def RequestBuilder.debugRun (b : RequestBuilder) :
    (String × List (String × String)) × RequestBuilder :=
  (b.debugFmt, b)

/-- Concrete transport used by witness instantiations. -/
def sampleClient : Client := fun _ => Except.ok { status := 200 }

/-- Concrete fresh request used by witness instantiations. -/
def sampleRequest : Request := Request.new "GET" "https://hyper.rs"

/-- Concrete valid builder used by witness instantiations. -/
def validBuilder : RequestBuilder := RequestBuilder.new sampleClient (Except.ok sampleRequest)

/-- Concrete failed builder (first captured error) used by witness
instantiations. -/
def failedBuilder : RequestBuilder :=
  RequestBuilder.new sampleClient (Except.error (ReqError.builder "invalid header name"))

/-- Helper: agreement of `header` with its instrumented version. -/
theorem headerTraced_fst (b : RequestBuilder) (k : Except HttpError HeaderName)
    (v : Except HttpError HeaderValue) : (b.headerTraced k v).fst = b.header k v := by
  obtain ⟨c, req⟩ := b
  cases req with
  | error e => rfl
  | ok r =>
    cases k with
    | error e => rfl
    | ok key => cases v <;> rfl

/-- Helper: agreement of `send` with its instrumented version. -/
theorem sendTraced_fst (b : RequestBuilder) : b.sendTraced.fst = b.send := by
  obtain ⟨c, req⟩ := b
  cases req <;> rfl

/-- Helper: every chained call on a failed builder returns it unchanged. -/
theorem applyOp_of_failed (b : RequestBuilder) (e : ReqError) (op : BuildOp)
    (h : b.request = Except.error e) : applyOp b op = b := by
  obtain ⟨c, req⟩ := b
  simp only at h
  subst h
  cases op with
  | body v => rfl
  | header k v =>
    cases k with
    | error e2 => rfl
    | ok key => cases v <;> rfl
  | fetch_mode m => rfl
  | cache_mode m => rfl

/-- Helper: a whole chain on a failed builder returns it unchanged. -/
theorem applyChain_of_failed (b : RequestBuilder) (e : ReqError) (ops : List BuildOp)
    (h : b.request = Except.error e) : applyChain b ops = b := by
  induction ops with
  | nil => rfl
  | cons op ops ih =>
    show applyChain (applyOp b op) ops = b
    rw [applyOp_of_failed b e op h]
    exact ih

/-- C1: failure is sticky.  For every builder whose outcome is `Failed(e)`,
any chain of further `body`, `header`, `fetch_mode`, `cache_mode` calls
leaves the builder (outcome and all request state) unchanged, and a later
`send` resolves with that first captured error `e` regardless of how many
further calls were chained. -/
theorem c1_failure_sticky (b : RequestBuilder) (e : ReqError) (ops : List BuildOp)
    (h : b.request = Except.error e) :
    applyChain b ops = b ∧ (applyChain b ops).send = Except.error e := by
  refine ⟨applyChain_of_failed b e ops h, ?_⟩
  rw [applyChain_of_failed b e ops h]
  obtain ⟨c, req⟩ := b
  simp only at h
  subst h
  rfl

/-- Witness for C1 at a failed builder and a four-call chain covering each
operation. -/
theorem c1_failure_sticky_witness :
    applyChain failedBuilder
        [BuildOp.body "payload",
          BuildOp.header (Except.ok "x-a") (Except.ok "1"),
          BuildOp.fetch_mode RequestMode.cors,
          BuildOp.cache_mode RequestCache.no_store] = failedBuilder ∧
      (applyChain failedBuilder
          [BuildOp.body "payload",
            BuildOp.header (Except.ok "x-a") (Except.ok "1"),
            BuildOp.fetch_mode RequestMode.cors,
            BuildOp.cache_mode RequestCache.no_store]).send
        = Except.error (ReqError.builder "invalid header name") :=
  c1_failure_sticky failedBuilder (ReqError.builder "invalid header name") _ rfl

/-- C2: `send` is the single surfacing point for errors.  On a `Failed(e)`
outcome `send` resolves with `e` and the transport dispatch is invoked zero
times; on a `Valid(request)` outcome `send` returns exactly the transport
result for that request, with dispatch invoked once. -/
theorem c2_send_single_surfacing (b : RequestBuilder) (e : ReqError) (r : Request) :
    (b.request = Except.error e →
        b.sendTraced = (Except.error e, 0) ∧ b.send = Except.error e) ∧
      (b.request = Except.ok r →
        b.sendTraced = (b.client r, 1) ∧ b.send = b.client r) := by
  obtain ⟨c, req⟩ := b
  constructor
  · intro h
    simp only at h
    subst h
    exact ⟨rfl, rfl⟩
  · intro h
    simp only at h
    subst h
    exact ⟨rfl, rfl⟩

/-- Witness for C2: a failed builder resolves with its stored error and
never dispatches; a valid builder returns the transport result with exactly
one dispatch. -/
theorem c2_send_single_surfacing_witness :
    (failedBuilder.sendTraced
          = (Except.error (ReqError.builder "invalid header name"), 0) ∧
        failedBuilder.send = Except.error (ReqError.builder "invalid header name")) ∧
      (validBuilder.sendTraced = (Except.ok { status := 200 }, 1) ∧
        validBuilder.send = Except.ok { status := 200 }) := by
  refine ⟨(c2_send_single_surfacing failedBuilder
      (ReqError.builder "invalid header name") sampleRequest).1 rfl, ?_⟩
  have h := (c2_send_single_surfacing validBuilder
      (ReqError.builder "invalid header name") sampleRequest).2 rfl
  exact h

/-- C3: on a valid builder, any sequence of header insertions whose name and
value conversions all succeed appends exactly those pairs, in insertion
order, to the existing header map — repeated names accumulate values and
nothing is overwritten. -/
theorem c3_headers_accumulate (b : RequestBuilder) (r : Request)
    (ps : List (HeaderName × HeaderValue)) (h : b.request = Except.ok r) :
    (applyChain b (valid_header_ops ps)).request
      = Except.ok { r with headers := r.headers ++ ps } := by
  induction ps generalizing b r with
  | nil =>
    show b.request = _
    rw [h]
    simp
  | cons p ps ih =>
    obtain ⟨c, req⟩ := b
    simp only at h
    subst h
    show (applyChain
        (applyOp ⟨c, Except.ok r⟩ (BuildOp.header (Except.ok p.fst) (Except.ok p.snd)))
        (valid_header_ops ps)).request = _
    have step : applyOp ⟨c, Except.ok r⟩ (BuildOp.header (Except.ok p.fst) (Except.ok p.snd))
        = ⟨c, Except.ok { r with headers := r.headers.append p.fst p.snd }⟩ := rfl
    rw [step,
      ih ⟨c, Except.ok { r with headers := r.headers.append p.fst p.snd }⟩
        { r with headers := r.headers.append p.fst p.snd } rfl]
    simp [HeaderMap.append]

/-- Witness for C3, scenario A: two insertions of the same name `X-A` yield
the values `["1", "2"]` in insertion order. -/
theorem c3_headers_accumulate_witness :
    (applyChain validBuilder (valid_header_ops [("X-A", "1"), ("X-A", "2")])).request
        = Except.ok { sampleRequest with headers := [("X-A", "1"), ("X-A", "2")] } ∧
      HeaderMap.get_all [("X-A", "1"), ("X-A", "2")] "X-A" = ["1", "2"] := by
  refine ⟨?_, rfl⟩
  exact c3_headers_accumulate validBuilder sampleRequest [("X-A", "1"), ("X-A", "2")] rfl

/-- C4 counterexample: the claim asserts that on an already-failed builder a
later `header` call still performs its validation.  In the code both
`TryFrom` conversions live inside `if let Ok(ref mut req)`, so on a failed
builder no conversion is attempted: at this concrete failed builder with an
invalid name and value, the trace of attempted conversions is empty — in
particular the name conversion the claim requires is not in it. -/
theorem c4_validation_performed_counterexample :
    (failedBuilder.headerTraced (Except.error "bad header name")
          (Except.error "bad header value")).snd = [] ∧
      ConvAttempt.nameConv ∉ (failedBuilder.headerTraced (Except.error "bad header name")
          (Except.error "bad header value")).snd := by
  exact ⟨rfl, by simp [failedBuilder, RequestBuilder.new, RequestBuilder.headerTraced]⟩

/-- C4 amended: when the builder's outcome is already `Failed(e)`, a later
`header` call — even one whose arguments would fail validation — is fully
skipped: no conversion is attempted, the builder is returned unchanged, and
the outcome keeps the first captured error (first failure wins). -/
theorem c4_first_failure_wins (b : RequestBuilder) (e : ReqError)
    (k : Except HttpError HeaderName) (v : Except HttpError HeaderValue)
    (h : b.request = Except.error e) :
    b.headerTraced k v = (b, []) ∧ (b.headerTraced k v).fst.request = Except.error e := by
  obtain ⟨c, req⟩ := b
  simp only at h
  subst h
  exact ⟨rfl, rfl⟩

/-- Witness for the amended C4 at a concrete failed builder with invalid
name and value arguments. -/
theorem c4_first_failure_wins_witness :
    failedBuilder.headerTraced (Except.error "also bad name") (Except.error "also bad value")
        = (failedBuilder, []) ∧
      (failedBuilder.headerTraced (Except.error "also bad name")
          (Except.error "also bad value")).fst.request
        = Except.error (ReqError.builder "invalid header name") :=
  c4_first_failure_wins failedBuilder (ReqError.builder "invalid header name")
    (Except.error "also bad name") (Except.error "also bad value") rfl

/-- C5: `body`, `fetch_mode` and `cache_mode` never themselves fail — after
any of them the outcome is `Failed(e)` exactly when it already was — and on
a valid outcome they install the payload respectively set their mode token,
replacing any previous value. -/
theorem c5_setters_never_fail (b : RequestBuilder) (r : Request) (v : Body)
    (m : RequestMode) (cm : RequestCache) (e : ReqError) :
    ((b.body v).request = Except.error e ↔ b.request = Except.error e) ∧
      ((b.fetch_mode m).request = Except.error e ↔ b.request = Except.error e) ∧
      ((b.cache_mode cm).request = Except.error e ↔ b.request = Except.error e) ∧
      (b.request = Except.ok r →
        (b.body v).request = Except.ok { r with body := some v } ∧
          (b.fetch_mode m).request = Except.ok { r with fetch_mode := some m } ∧
          (b.cache_mode cm).request = Except.ok { r with cache_mode := some cm }) := by
  obtain ⟨c, req⟩ := b
  cases req with
  | error e2 =>
    refine ⟨Iff.rfl, Iff.rfl, Iff.rfl, ?_⟩
    intro h
    simp at h
  | ok r2 =>
    refine ⟨?_, ?_, ?_, ?_⟩
    · simp [RequestBuilder.body]
    · simp [RequestBuilder.fetch_mode]
    · simp [RequestBuilder.cache_mode]
    · intro h
      simp only [Except.ok.injEq] at h
      subst h
      exact ⟨rfl, rfl, rfl⟩

/-- Witness for C5 at a valid and at a failed builder. -/
theorem c5_setters_never_fail_witness :
    (validBuilder.body "payload").request
        = Except.ok { sampleRequest with body := some "payload" } ∧
      ((failedBuilder.fetch_mode RequestMode.cors).request
          = Except.error (ReqError.builder "invalid header name")
        ↔ failedBuilder.request = Except.error (ReqError.builder "invalid header name")) := by
  refine ⟨?_, ?_⟩
  · exact ((c5_setters_never_fail validBuilder sampleRequest "payload" RequestMode.cors
      RequestCache.no_store (ReqError.builder "x")).2.2.2 rfl).1
  · exact (c5_setters_never_fail failedBuilder sampleRequest "payload" RequestMode.cors
      RequestCache.no_store (ReqError.builder "invalid header name")).2.1

/-- Helper: no chained call replaces the builder's client handle. -/
theorem applyOp_client (b : RequestBuilder) (op : BuildOp) :
    (applyOp b op).client = b.client := by
  obtain ⟨c, req⟩ := b
  cases op with
  | body v => cases req <;> rfl
  | header k v =>
    cases req with
    | error e => rfl
    | ok r =>
      cases k with
      | error e => rfl
      | ok key => cases v <;> rfl
  | fetch_mode m => cases req <;> rfl
  | cache_mode m => cases req <;> rfl

/-- Helper: the client handle survives a whole chain unchanged. -/
theorem applyChain_client (b : RequestBuilder) (ops : List BuildOp) :
    (applyChain b ops).client = b.client := by
  induction ops generalizing b with
  | nil => rfl
  | cons op ops ih =>
    show (applyChain (applyOp b op) ops).client = _
    rw [ih (applyOp b op), applyOp_client]

/-- C6: on a never-failed chain, `send` hands the transport exactly the
request as built — `send` applies the builder's original client (which no
chain call replaces) to precisely the stored request, altering or dropping
no field — and in particular, after `fetch_mode(cors)`, `cache_mode(no_store)`
and `body(p)`, the transport receives the request with exactly those mode
tokens and payload (scenario D). -/
theorem c6_send_transfers_exact (b : RequestBuilder) (r : Request) (p : Body)
    (ops : List BuildOp) :
    (b.request = Except.ok r → b.send = b.client r) ∧
      (applyChain b ops).client = b.client ∧
      (b.request = Except.ok r →
        (((b.fetch_mode RequestMode.cors).cache_mode RequestCache.no_store).body p).send
          = b.client { r with
              body := some p
              fetch_mode := some RequestMode.cors
              cache_mode := some RequestCache.no_store }) := by
  obtain ⟨c, req⟩ := b
  refine ⟨?_, applyChain_client _ ops, ?_⟩
  · intro h
    simp only at h
    subst h
    rfl
  · intro h
    simp only at h
    subst h
    rfl

/-- Witness for C6 at a valid builder: scenario D with the sample
transport. -/
theorem c6_send_transfers_exact_witness :
    validBuilder.send = sampleClient sampleRequest ∧
      (((validBuilder.fetch_mode RequestMode.cors).cache_mode RequestCache.no_store).body
          "textPayload").send
        = sampleClient { sampleRequest with
            body := some "textPayload"
            fetch_mode := some RequestMode.cors
            cache_mode := some RequestCache.no_store } := by
  have h := c6_send_transfers_exact validBuilder sampleRequest "textPayload" []
  exact ⟨h.1 rfl, h.2.2 rfl⟩

/-- C7: the debug snapshot of a failed builder is exactly the captured
error with no request fields; of a valid builder exactly `method`, `url`,
`headers` with no error field; and neither a builder's nor a request's
snapshot ever contains `body`, `fetch_mode` or `cache_mode`. -/
theorem c7_debug_field_selection (b : RequestBuilder) (r : Request) (e : ReqError) :
    (b.request = Except.error e → b.debugFmt.snd = [("error", reprError e)]) ∧
      (b.request = Except.ok r →
        b.debugFmt.snd.map Prod.fst = ["method", "url", "headers"]) ∧
      ("body" ∉ b.debugFmt.snd.map Prod.fst ∧
        "fetch_mode" ∉ b.debugFmt.snd.map Prod.fst ∧
        "cache_mode" ∉ b.debugFmt.snd.map Prod.fst) ∧
      r.debugFmt.snd.map Prod.fst = ["method", "url", "headers"] := by
  obtain ⟨c, req⟩ := b
  cases req with
  | error e2 =>
    refine ⟨?_, ?_, ?_, rfl⟩
    · intro h
      simp only [Except.error.injEq] at h
      subst h
      rfl
    · intro h
      simp at h
    · show "body" ∉ ["error"] ∧ "fetch_mode" ∉ ["error"] ∧ "cache_mode" ∉ ["error"]
      decide
  | ok r2 =>
    refine ⟨?_, ?_, ?_, rfl⟩
    · intro h
      simp at h
    · intro h
      rfl
    · show "body" ∉ ["method", "url", "headers"] ∧
        "fetch_mode" ∉ ["method", "url", "headers"] ∧
        "cache_mode" ∉ ["method", "url", "headers"]
      decide

/-- Witness for C7 at a failed and a valid builder. -/
theorem c7_debug_field_selection_witness :
    failedBuilder.debugFmt.snd
        = [("error", reprError (ReqError.builder "invalid header name"))] ∧
      validBuilder.debugFmt.snd.map Prod.fst = ["method", "url", "headers"] := by
  refine ⟨?_, ?_⟩
  · exact (c7_debug_field_selection failedBuilder sampleRequest
      (ReqError.builder "invalid header name")).1 rfl
  · exact (c7_debug_field_selection validBuilder sampleRequest
      (ReqError.builder "invalid header name")).2.1 rfl

/-- C8: debug formatting of a request and of a builder is total, read-only
and side-effect-free: for both builder outcomes it produces its snapshot —
never panicking, which in this pure embedding means the formatting functions
are total — and returns the formatted value unchanged. -/
theorem c8_debug_total_readonly (b : RequestBuilder) (r : Request) (rq : Request)
    (e : ReqError) :
    r.debugRun = (r.debugFmt, r) ∧
      b.debugRun = (b.debugFmt, b) ∧
      r.debugRun.snd = r ∧
      b.debugRun.snd = b ∧
      (b.request = Except.error e →
        b.debugFmt = ("RequestBuilder", [("error", reprError e)])) ∧
      (b.request = Except.ok rq →
        b.debugFmt = ("RequestBuilder", fmt_request_fields rq)) := by
  obtain ⟨c, req⟩ := b
  refine ⟨rfl, rfl, rfl, rfl, ?_, ?_⟩
  · intro h
    simp only at h
    subst h
    rfl
  · intro h
    simp only at h
    subst h
    rfl

/-- Witness for C8 at a concrete request, a failed builder and a valid
builder. -/
theorem c8_debug_total_readonly_witness :
    sampleRequest.debugRun.snd = sampleRequest ∧
      failedBuilder.debugRun.snd = failedBuilder ∧
      failedBuilder.debugFmt
        = ("RequestBuilder",
            [("error", reprError (ReqError.builder "invalid header name"))]) ∧
      validBuilder.debugFmt = ("RequestBuilder", fmt_request_fields sampleRequest) := by
  refine ⟨?_, ?_, ?_, ?_⟩
  · exact (c8_debug_total_readonly failedBuilder sampleRequest sampleRequest
      (ReqError.builder "x")).2.2.1
  · exact (c8_debug_total_readonly failedBuilder sampleRequest sampleRequest
      (ReqError.builder "x")).2.2.2.1
  · exact (c8_debug_total_readonly failedBuilder sampleRequest sampleRequest
      (ReqError.builder "invalid header name")).2.2.2.2.1 rfl
  · exact (c8_debug_total_readonly validBuilder sampleRequest sampleRequest
      (ReqError.builder "x")).2.2.2.2.2 rfl

/-- C9: within one `header` call on a valid builder the name conversion is
attempted first (it heads the attempt trace), the value conversion is
attempted only when the name conversion succeeded, and when both name and
value are invalid the captured construction error is the name's error. -/
theorem c9_name_conversion_first (b : RequestBuilder) (r : Request)
    (k : Except HttpError HeaderName) (v : Except HttpError HeaderValue)
    (en ev : HttpError) (h : b.request = Except.ok r) :
    (b.headerTraced k v).snd.head? = some ConvAttempt.nameConv ∧
      (ConvAttempt.valueConv ∈ (b.headerTraced k v).snd → ∃ key, k = Except.ok key) ∧
      (k = Except.error en → (b.headerTraced k v).snd = [ConvAttempt.nameConv]) ∧
      (k = Except.error en → v = Except.error ev →
        (b.headerTraced k v).fst.request = Except.error (ReqError.builder en)) := by
  obtain ⟨c, req⟩ := b
  simp only at h
  subst h
  cases k with
  | error e1 =>
    refine ⟨rfl, ?_, ?_, ?_⟩
    · intro hmem
      simp [RequestBuilder.headerTraced] at hmem
    · intro hk
      rfl
    · intro hk hv
      simp only [Except.error.injEq] at hk
      subst hk
      rfl
  | ok key =>
    refine ⟨?_, ?_, ?_, ?_⟩
    · cases v <;> rfl
    · intro hmem
      exact ⟨key, rfl⟩
    · intro hk
      simp at hk
    · intro hk hv
      simp at hk

/-- Witness for C9: on a valid builder with both the name and the value
invalid, only the name conversion is attempted and its error is captured. -/
theorem c9_name_conversion_first_witness :
    (validBuilder.headerTraced (Except.error "bad name") (Except.error "bad value")).snd
        = [ConvAttempt.nameConv] ∧
      (validBuilder.headerTraced (Except.error "bad name")
          (Except.error "bad value")).fst.request
        = Except.error (ReqError.builder "bad name") := by
  have h := c9_name_conversion_first validBuilder sampleRequest (Except.error "bad name")
    (Except.error "bad value") "bad name" "bad value" rfl
  exact ⟨h.2.2.1 rfl, h.2.2.2 rfl rfl⟩

/-- C10: frame property of the mutating chain calls on a valid builder —
`body` changes only the body field, `fetch_mode` only the fetch-mode field,
`cache_mode` only the cache-mode field, and a successful `header` only the
headers field; every other request field is left unchanged. -/
theorem c10_frame_property (b : RequestBuilder) (r : Request) (v : Body)
    (m : RequestMode) (cm : RequestCache) (k : HeaderName) (val : HeaderValue)
    (h : b.request = Except.ok r) :
    (∃ r1, (b.body v).request = Except.ok r1 ∧ r1.body = some v ∧
      r1.method = r.method ∧ r1.url = r.url ∧ r1.headers = r.headers ∧
      r1.fetch_mode = r.fetch_mode ∧ r1.cache_mode = r.cache_mode) ∧
    (∃ r2, (b.fetch_mode m).request = Except.ok r2 ∧ r2.fetch_mode = some m ∧
      r2.method = r.method ∧ r2.url = r.url ∧ r2.headers = r.headers ∧
      r2.body = r.body ∧ r2.cache_mode = r.cache_mode) ∧
    (∃ r3, (b.cache_mode cm).request = Except.ok r3 ∧ r3.cache_mode = some cm ∧
      r3.method = r.method ∧ r3.url = r.url ∧ r3.headers = r.headers ∧
      r3.body = r.body ∧ r3.fetch_mode = r.fetch_mode) ∧
    (∃ r4, (b.header (Except.ok k) (Except.ok val)).request = Except.ok r4 ∧
      r4.headers = r.headers.append k val ∧ r4.method = r.method ∧ r4.url = r.url ∧
      r4.body = r.body ∧ r4.fetch_mode = r.fetch_mode ∧ r4.cache_mode = r.cache_mode) := by
  obtain ⟨c, req⟩ := b
  simp only at h
  subst h
  exact ⟨⟨_, rfl, rfl, rfl, rfl, rfl, rfl, rfl⟩,
    ⟨_, rfl, rfl, rfl, rfl, rfl, rfl, rfl⟩,
    ⟨_, rfl, rfl, rfl, rfl, rfl, rfl, rfl⟩,
    ⟨_, rfl, rfl, rfl, rfl, rfl, rfl, rfl⟩⟩

/-- Witness for C10 at the sample valid builder with concrete arguments. -/
theorem c10_frame_property_witness :
    ∃ r1, (validBuilder.body "payload").request = Except.ok r1 ∧ r1.body = some "payload" ∧
      r1.method = sampleRequest.method ∧ r1.url = sampleRequest.url ∧
      r1.headers = sampleRequest.headers ∧ r1.fetch_mode = sampleRequest.fetch_mode ∧
      r1.cache_mode = sampleRequest.cache_mode :=
  (c10_frame_property validBuilder sampleRequest "payload" RequestMode.cors
    RequestCache.no_store "x-a" "1" rfl).1

end ReqwestWasm
